import Mathlib

/-!
Shallow embedding of the QR check-in scanner in src/static/js/qr.js.

Timestamps are milliseconds as Nat.  JS comparisons of the form
(now - last < k) are modelled with truncated Nat subtraction; this agrees
with the JS signed comparison on both branches, because a negative JS
difference and a Nat difference truncated to zero are both below k.
String lengths are modelled as character counts; every payload considered
here is ASCII, where this coincides with the JS UTF-16 length.
Asynchronous awaits (device enumeration, getUserMedia, the readiness
wait) are flattened into an environment record describing the outcome of
each suspension point, and DOM or logging side effects are dropped.
-/

-- Fields of SCAN_CONFIG (qr.js lines 11 to 17).
def SCAN_INTERVAL : Nat := 300

def SCAN_COOLDOWN : Nat := 2000

def MAX_RETRIES : Nat := 3

def SCAN_TIMEOUT : Nat := 5 * 60 * 1000

def CAMERA_RETRY_DELAY : Nat := 1000

/-- The scanStats object (qr.js lines 20 to 72).  The counters only ever
restart at zero and increment, so Nat is a faithful carrier and
non-negativity is built in. -/
structure ScanStats where
  totalScans : Nat
  successfulScans : Nat
  failedScans : Nat
  cameraStarts : Nat
  cameraErrors : Nat
  scanStartTime : Option Nat
deriving DecidableEq

/-- scanStats.startSession (qr.js lines 28 to 35). -/
def ScanStats.startSession (st : ScanStats) (now : Nat) : ScanStats :=
  { st with
    scanStartTime := some now
    totalScans := 0
    successfulScans := 0
    failedScans := 0
    cameraStarts := 0
    cameraErrors := 0 }

/-- scanStats.recordScan (qr.js lines 37 to 43). -/
def ScanStats.recordScan (st : ScanStats) (success : Bool) : ScanStats :=
  { st with
    totalScans := st.totalScans + 1
    successfulScans := if success then st.successfulScans + 1 else st.successfulScans
    failedScans := if success then st.failedScans else st.failedScans + 1 }

/-- scanStats.recordCameraStart (qr.js lines 45 to 47). -/
def ScanStats.recordCameraStart (st : ScanStats) : ScanStats :=
  { st with cameraStarts := st.cameraStarts + 1 }

/-- scanStats.recordCameraError (qr.js lines 49 to 51). -/
def ScanStats.recordCameraError (st : ScanStats) : ScanStats :=
  { st with cameraErrors := st.cameraErrors + 1 }

/-- The module-level counters at script load (qr.js lines 20 to 26). -/
def initStats : ScanStats :=
  { totalScans := 0, successfulScans := 0, failedScans := 0
    cameraStarts := 0, cameraErrors := 0, scanStartTime := none }

/-- The invariant of claim C9 over the three scan counters. -/
def statsInvariant (st : ScanStats) : Prop :=
  st.totalScans = st.successfulScans + st.failedScans

instance (st : ScanStats) : Decidable (statsInvariant st) := by
  unfold statsInvariant
  infer_instance

-- ---------------------------------------------------------------------
-- Payload validation (qr.js lines 407 to 437).
-- ---------------------------------------------------------------------

/-- The WhiteSpace and LineTerminator set stripped by the JS
String.prototype.trim. -/
def isJsWhitespace (c : Char) : Bool :=
  c.toNat = 9 || c.toNat = 10 || c.toNat = 11 || c.toNat = 12 || c.toNat = 13 ||
  c.toNat = 32 || c.toNat = 160 || c.toNat = 0x1680 ||
  (0x2000 ≤ c.toNat && c.toNat ≤ 0x200A) ||
  c.toNat = 0x2028 || c.toNat = 0x2029 ||
  c.toNat = 0x202F || c.toNat = 0x205F || c.toNat = 0x3000 || c.toNat = 0xFEFF

/-- JS String.prototype.trim: drop whitespace from both ends. -/
def jsTrim (s : String) : String :=
  String.mk (((s.toList.dropWhile isJsWhitespace).reverse.dropWhile isJsWhitespace).reverse)

/-- The regex STUDENT_ followed by one or more digits, anchored at both
ends (qr.js line 425). -/
def matchesStudentPattern (s : String) : Bool :=
  (s.toList.take 8 == "STUDENT_".toList) && 8 < s.toList.length &&
    (s.toList.drop 8).all Char.isDigit

/-- Membership in the character class of letters, digits, underscore and
dash (qr.js line 426). -/
def isWordChar (c : Char) : Bool :=
  (65 ≤ c.toNat && c.toNat ≤ 90) || (97 ≤ c.toNat && c.toNat ≤ 122) ||
  (48 ≤ c.toNat && c.toNat ≤ 57) || c = '_' || c = '-'

/-- The regex of 5 to 50 word characters, anchored at both ends
(qr.js line 426). -/
def matchesBoundedWordPattern (s : String) : Bool :=
  5 ≤ s.length && s.length ≤ 50 && s.toList.all isWordChar

/-- The object returned by validateQRCode.  The two early returns carry
no cleanData field (undefined in JS), modelled as none. -/
structure ValidationResult where
  valid : Bool
  cleanData : Option String
  reason : String
deriving DecidableEq

/-- validateQRCode (qr.js lines 407 to 437).  The argument is always a
string here, so the typeof check of line 408 reduces to the emptiness
test (the empty string is the only falsy string). -/
def validateQRCode (qrString : String) : ValidationResult :=
  if qrString = "" then
    { valid := false, cleanData := none, reason := "Invalid QR format" }
  else
    let cleanString := jsTrim qrString
    if cleanString.length = 0 then
      { valid := false, cleanData := none, reason := "Empty QR code" }
    else if cleanString.length > 1000 then
      { valid := false, cleanData := none, reason := "QR code too long" }
    else
      let ok := matchesStudentPattern cleanString || matchesBoundedWordPattern cleanString
      { valid := ok, cleanData := some cleanString
        reason := if ok then "Valid" else "Unexpected QR code format" }

-- ---------------------------------------------------------------------
-- Scanner state (the module-level mutable variables, qr.js lines 2 to 8).
-- ---------------------------------------------------------------------

inductive FacingMode
  | environment
  | user
deriving DecidableEq

/-- The module-level mutable state of qr.js.  openStreams records the
hardware MediaStream objects whose tracks have not been stopped; it is
the model of the physical camera resource (getUserMedia adds a stream,
track.stop in stopCamera removes it).  scanTimeout is modelled as a flag
saying whether the auto-stop timer is armed. -/
structure ScannerState where
  videoStream : Option Nat
  openStreams : List Nat
  currentFacingMode : FacingMode
  isScanning : Bool
  animationFrame : Option Nat
  lastScanTime : Nat
  cameraRetryCount : Nat
  scanTimeout : Bool
  stats : ScanStats
deriving DecidableEq

/-- The state right after script load (qr.js lines 2 to 8). -/
def initState : ScannerState :=
  { videoStream := none, openStreams := [], currentFacingMode := .environment
    isScanning := false, animationFrame := none, lastScanTime := 0
    cameraRetryCount := 0, scanTimeout := false, stats := initStats }

-- ---------------------------------------------------------------------
-- Camera selection (qr.js lines 92 to 124).
-- ---------------------------------------------------------------------

/-- Does the first list start with the second one. -/
def listStartsWith : List Char → List Char → Bool
  | _, [] => true
  | [], _ :: _ => false
  | c :: cs, d :: ds => c = d && listStartsWith cs ds

/-- Does some suffix of the first list start with the second one. -/
def listContainsSeq : List Char → List Char → Bool
  | [], sub => sub.isEmpty
  | c :: cs, sub => listStartsWith (c :: cs) sub || listContainsSeq cs sub

/-- JS String.prototype.includes as a substring test on characters. -/
def jsIncludes (s sub : String) : Bool :=
  listContainsSeq s.toList sub.toList

/-- JS String.prototype.toLowerCase restricted to the ASCII labels used
here. -/
def jsToLower (s : String) : String :=
  String.mk (s.toList.map Char.toLower)

/-- The rear-facing label heuristic of getBestCamera (qr.js lines 104 to
109); the digit test of line 108 runs on the original casing. -/
def isRearCameraLabel (label : String) : Bool :=
  jsIncludes (jsToLower label) "back" || jsIncludes (jsToLower label) "rear" ||
  jsIncludes (jsToLower label) "environment" || jsIncludes label "2"

/-- getBestCamera (qr.js lines 92 to 124).  The argument is the label
list of the enumerated video input devices, or none when enumerateDevices
threw.  The no-cameras throw of line 100 is caught by the functions own
catch at line 120, so both failure shapes land in the fallback pair. -/
def getBestCamera : Option (List String) → Option String × FacingMode
  | none => (none, .environment)
  | some devices =>
    match devices with
    | [] => (none, .environment)
    | d :: ds =>
      match (d :: ds).find? isRearCameraLabel with
      | some r => (some r, .environment)
      | none => (some d, .user)

-- ---------------------------------------------------------------------
-- Camera lifecycle (qr.js lines 142 to 368).
-- ---------------------------------------------------------------------

/-- The error shapes distinguished by handleCameraError (qr.js lines 494
to 513).  videoLoadingTimeout is the rejection of the readiness wait at
line 235; the spec calls NotAllowedError PermissionDenied and the
unloaded-library abort DecoderUnavailable. -/
inductive CameraError
  | NotAllowedError
  | NotFoundError
  | NotSupportedError
  | NotReadableError
  | videoLoadingTimeout
  | otherError
deriving DecidableEq

inductive AcqResult
  | ok (streamId : Nat)
  | err (e : CameraError)
deriving DecidableEq

/-- Outcomes of the suspension points inside one startCamera call:
whether jsQR is defined (line 84), the enumerated device labels (none
when enumeration threw), the getUserMedia result (line 222), and whether
the readiness wait of lines 228 to 236 resolved before its 10 s
timeout. -/
structure StartEnv where
  jsQRLoaded : Bool
  devices : Option (List String)
  acquisition : AcqResult
  videoReady : Bool
deriving DecidableEq

/-- How one startCamera call returned: the early idempotence return of
line 176, the early library abort of line 181 (DecoderUnavailable in the
specs taxonomy, a plain return in the code), normal completion, or a
rethrown error (line 295). -/
inductive StartResult
  | alreadyScanning
  | libraryNotLoaded
  | ok
  | threw (e : CameraError)
deriving DecidableEq

/-- Hardware-touching operations, in call order. -/
inductive Effect
  | enumerateDevices
  | getUserMedia
deriving DecidableEq

/-- startCamera (qr.js lines 173 to 297).  Mirrors the source order:
idempotence guard, library guard, recordCameraStart, getBestCamera with
the facing-mode overwrite of line 201, getUserMedia with the assignment
videoStream = stream of line 224, the readiness wait, and only then
isScanning = true with the auto-stop timer (lines 242 and 253).  Note
that a readiness failure rethrows after videoStream was already
assigned, with no release of the acquired tracks. -/
def startCamera (env : StartEnv) (s : ScannerState) : ScannerState × StartResult × List Effect :=
  if s.isScanning then (s, .alreadyScanning, [])
  else if env.jsQRLoaded = false then (s, .libraryNotLoaded, [])
  else
    let s1 := { s with stats := s.stats.recordCameraStart }
    let info := getBestCamera env.devices
    let s2 := { s1 with currentFacingMode := info.2 }
    match env.acquisition with
    | .err e => (s2, .threw e, [.enumerateDevices, .getUserMedia])
    | .ok sid =>
      let s3 := { s2 with videoStream := some sid, openStreams := sid :: s2.openStreams }
      if env.videoReady = false then
        (s3, .threw .videoLoadingTimeout, [.enumerateDevices, .getUserMedia])
      else
        let s4 := { s3 with isScanning := true, scanTimeout := true }
        (s4, .ok, [.enumerateDevices, .getUserMedia, .enumerateDevices])

/-- stopCamera (qr.js lines 299 to 338): no-op unless isScanning, then
clears the flag, disarms the auto-stop timer, cancels the pending
animation frame, stops every track of videoStream and nulls it. -/
def stopCamera (s : ScannerState) : ScannerState :=
  if s.isScanning = false then s
  else
    match s.videoStream with
    | some sid =>
      { s with
        isScanning := false
        scanTimeout := false
        animationFrame := none
        videoStream := none
        openStreams := s.openStreams.filter (fun x => x ≠ sid) }
    | none => { s with isScanning := false, scanTimeout := false, animationFrame := none }

/-- The states reported by the Permissions API query in
checkCameraPermissions (qr.js lines 127 to 139). -/
inductive PermissionState
  | granted
  | denied
  | prompt
  | unknown
deriving DecidableEq

/-- Environment of one startCameraWithRetry attempt: the permission
query result and the startCamera environment. -/
structure AttemptEnv where
  permission : PermissionState
  start : StartEnv
deriving DecidableEq

/-- handleCameraError (qr.js lines 485 to 522): records the statistic and
rewrites the UI into the terminal user-facing error surface. -/
def handleCameraError (s : ScannerState) : ScannerState :=
  { s with stats := s.stats.recordCameraError }

/-- What one startCameraWithRetry invocation did next. -/
inductive RetryOutcome
  | permissionEscalated
  | done
  | retryScheduled (delay : Nat)
  | escalated (e : CameraError)
deriving DecidableEq

/-- startCameraWithRetry (qr.js lines 142 to 171).  Only a Permissions
API answer of denied short-circuits (line 146); the reset of line 153
runs after every non-throwing startCamera return, including the early
library and idempotence returns; the catch classifies nothing and counts
every thrown error, scheduling a retry after CAMERA_RETRY_DELAY times
the new count while the count stays at or below MAX_RETRIES. -/
def startCameraWithRetry (env : AttemptEnv) (s : ScannerState) : ScannerState × RetryOutcome :=
  if env.permission = .denied then (handleCameraError s, .permissionEscalated)
  else
    match startCamera env.start s with
    | (s1, .threw e, _) =>
      let c := s1.cameraRetryCount + 1
      let s2 := { s1 with cameraRetryCount := c }
      if c ≤ MAX_RETRIES then (s2, .retryScheduled (CAMERA_RETRY_DELAY * c))
      else (handleCameraError s2, .escalated e)
    | (s1, _, _) => ({ s1 with cameraRetryCount := 0 }, .done)

/-- Runs startCameraWithRetry on a list of attempt environments,
re-invoking only while the previous invocation scheduled a retry (the
setTimeout of qr.js line 162); every other outcome schedules no further
automatic attempt. -/
def runRetry (s : ScannerState) : List AttemptEnv → ScannerState × List RetryOutcome
  | [] => (s, [])
  | env :: envs =>
    match startCameraWithRetry env s with
    | (s1, .retryScheduled d) =>
      let (s2, rest) := runRetry s1 envs
      (s2, .retryScheduled d :: rest)
    | (s1, r) => (s1, [r])

inductive SwitchOutcome
  | ignored
  | completed (r : RetryOutcome)
deriving DecidableEq

def flipFacing : FacingMode → FacingMode
  | .environment => .user
  | .user => .environment

/-- switchCamera (qr.js lines 340 to 368): no-op unless scanning, else
stopCamera, flip currentFacingMode, await startCameraWithRetry.  The
catch of lines 357 to 367 is unreachable in this semantics because
startCameraWithRetry resolves on every modelled path, so the best-effort
restart with the original preference never runs. -/
def switchCamera (env : AttemptEnv) (s : ScannerState) : ScannerState × SwitchOutcome :=
  if s.isScanning = false then (s, .ignored)
  else
    let s1 := stopCamera s
    let s2 := { s1 with currentFacingMode := flipFacing s1.currentFacingMode }
    let (s3, r) := startCameraWithRetry env s2
    (s3, .completed r)

-- ---------------------------------------------------------------------
-- Payload processing and the scan loop (qr.js lines 256 to 291 and 439
-- to 483).
-- ---------------------------------------------------------------------

/-- What processQRCode did downstream: dispatched the cleaned payload to
fetchStudentData, or took one of the two restartCamera branches
(restartCamera records a failed scan and schedules a delayed
startCameraWithRetry, qr.js lines 470 to 483). -/
inductive ProcessOutcome
  | dispatched (cleanData : String)
  | invalidRestart (reason : String)
  | cooldownRestart
deriving DecidableEq

/-- processQRCode (qr.js lines 439 to 468).  The cooldown check of line
452 reads the same module variable lastScanTime that the scan loop
throttle writes at line 266. -/
def processQRCode (now : Nat) (s : ScannerState) (qrString : String) :
    ScannerState × ProcessOutcome :=
  let v := validateQRCode qrString
  if v.valid = false then
    ({ s with stats := s.stats.recordScan false }, .invalidRestart v.reason)
  else if now - s.lastScanTime < SCAN_COOLDOWN then
    ({ s with stats := s.stats.recordScan false }, .cooldownRestart)
  else
    ({ s with lastScanTime := now, stats := s.stats.recordScan true },
      .dispatched (v.cleanData.getD ""))

/-- What jsQR returned on one frame; threw models the caught decode
exception of qr.js line 283. -/
inductive DecodeResult
  | ok (payload : String)
  | noCode
  | threw
deriving DecidableEq

/-- Outcome of one scanQR tick. -/
inductive TickOutcome
  | inactive
  | throttled
  | frameNotReady
  | noCode
  | decodeErrorCaught
  | found (payload : String) (po : ProcessOutcome)
deriving DecidableEq

/-- One tick of the scanQR loop (qr.js lines 256 to 289): return if not
scanning, reschedule when now - lastScanTime is under SCAN_INTERVAL,
else write lastScanTime = now (line 266, before the readiness check),
then if the frame is ready attempt a decode; a decoded payload stops the
camera and runs processQRCode within the same synchronous turn (both
Date.now() reads are modelled as the single tick time now). -/
def scanQRTick (now : Nat) (frameReady : Bool) (dr : DecodeResult) (s : ScannerState) :
    ScannerState × TickOutcome :=
  if s.isScanning = false then (s, .inactive)
  else if now - s.lastScanTime < SCAN_INTERVAL then
    ({ s with animationFrame := some now }, .throttled)
  else
    let s1 := { s with lastScanTime := now }
    if frameReady then
      match dr with
      | .ok payload =>
        let s2 := stopCamera s1
        let pr := processQRCode now s2 payload
        (pr.1, .found payload pr.2)
      | .noCode => ({ s1 with animationFrame := some now }, .noCode)
      | .threw => ({ s1 with animationFrame := some now }, .decodeErrorCaught)
    else ({ s1 with animationFrame := some now }, .frameNotReady)

/-- True exactly when the tick reached the jsQR call of line 272. -/
def decodeAttempted : TickOutcome → Bool
  | .noCode => true
  | .decodeErrorCaught => true
  | .found _ _ => true
  | _ => false

/-- One scheduled tick: its time, whether the video element had enough
data, and what the decoder returned. -/
structure Tick where
  now : Nat
  frameReady : Bool
  decode : DecodeResult
deriving DecidableEq

/-- Runs a list of ticks through the scan loop, collecting the times at
which a decode was attempted. -/
def runTicks (s : ScannerState) : List Tick → ScannerState × List Nat
  | [] => (s, [])
  | t :: ts =>
    let p := scanQRTick t.now t.frameReady t.decode s
    let rest := runTicks p.1 ts
    (rest.1, (if decodeAttempted p.2 then [t.now] else []) ++ rest.2)

-- ---------------------------------------------------------------------
-- Concrete environments and states used by the theorems below.
-- ---------------------------------------------------------------------

/-- A start where acquisition succeeds with stream 7 but the readiness
wait of qr.js lines 228 to 236 rejects with the 10 s timeout. -/
def leakEnv : StartEnv :=
  { jsQRLoaded := true, devices := some ["camera"], acquisition := .ok 7, videoReady := false }

/-- A session in the Active shape produced by a successful start: the
scanning flag set, stream 1 open and the auto-stop timer armed. -/
def activeScanState : ScannerState :=
  { initState with isScanning := true, videoStream := some 1, openStreams := [1], scanTimeout := true }

/-- One acquisition attempt that fails with the given error: the
permission query answers prompt, jsQR is loaded, enumeration threw, and
getUserMedia rejects. -/
def failingAttempt (e : CameraError) : AttemptEnv :=
  { permission := .prompt
    start := { jsQRLoaded := true, devices := none, acquisition := .err e, videoReady := true } }

/-- A fully successful restart attempt whose device list contains a
rear-labelled camera. -/
def switchEnvOk : AttemptEnv :=
  { permission := .prompt
    start := { jsQRLoaded := true, devices := some ["back camera"], acquisition := .ok 2,
               videoReady := true } }

/-- A payload of JS length 1001 whose trailing 992 characters are
spaces. -/
def paddedPayload : String := "STUDENT_1" ++ String.mk (List.replicate 992 ' ')

-- ---------------------------------------------------------------------
-- Theorems.
-- ---------------------------------------------------------------------

/-- Claim C1 (code bug evidence): a start whose acquisition succeeds but
whose readiness wait times out rethrows with videoStream still holding
the live stream and isScanning false, so the open-stream iff Active
invariant is broken, and stopCamera on that state is a no-op (its guard
at qr.js line 300 sees isScanning false), so the leaked stream cannot
even be released by a stop. -/
theorem startCamera_ready_timeout_leaks_stream :
    (startCamera leakEnv initState).2.1 = .threw .videoLoadingTimeout ∧
    (startCamera leakEnv initState).1.isScanning = false ∧
    (startCamera leakEnv initState).1.videoStream = some 7 ∧
    (startCamera leakEnv initState).1.openStreams = [7] ∧
    stopCamera (startCamera leakEnv initState).1 = (startCamera leakEnv initState).1 := by
  decide

/-- Claim C2 (code bug evidence): the very first valid payload decoded by
the scan loop is processed as a cooldown duplicate and not dispatched,
because the throttle write to lastScanTime at qr.js line 266 happens in
the same tick that the cooldown check of line 452 reads; the tick
records a failed scan and only schedules a restart. -/
theorem scan_loop_first_payload_hits_cooldown :
    (scanQRTick 10000 true (.ok "STUDENT_12345") activeScanState).2 =
      .found "STUDENT_12345" .cooldownRestart ∧
    (validateQRCode "STUDENT_12345").valid = true ∧
    (scanQRTick 10000 true (.ok "STUDENT_12345") activeScanState).1.stats.failedScans = 1 ∧
    (scanQRTick 10000 true (.ok "STUDENT_12345") activeScanState).1.stats.successfulScans = 0 := by
  decide

/-- Claim C3 (counterexample): after exactly 3 consecutive non-permission
acquisition failures from a fresh session, the third invocation still
schedules a fourth automatic attempt (retryCount is 3, which is at most
MAX_RETRIES), and no outcome is an escalation to the error state. -/
theorem three_failures_schedule_fourth_attempt :
    (runRetry initState [failingAttempt .NotReadableError, failingAttempt .NotReadableError,
        failingAttempt .NotReadableError]).2 =
      [.retryScheduled 1000, .retryScheduled 2000, .retryScheduled 3000] ∧
    (runRetry initState [failingAttempt .NotReadableError, failingAttempt .NotReadableError,
        failingAttempt .NotReadableError]).1.cameraRetryCount = 3 ∧
    (runRetry initState [failingAttempt .NotReadableError, failingAttempt .NotReadableError,
        failingAttempt .NotReadableError]).1.stats.cameraErrors = 0 := by
  decide

/-- Claim C4 (counterexample): an acquisition failure carrying the
permission-denied error name (NotAllowedError from getUserMedia, with
the Permissions API answering prompt) goes through the generic retry
path: the retry counter is incremented to 1 and another start is
scheduled after 1000 ms. -/
theorem notallowed_acquisition_failure_is_retried :
    (startCameraWithRetry (failingAttempt .NotAllowedError) initState).2 =
      .retryScheduled 1000 ∧
    (startCameraWithRetry (failingAttempt .NotAllowedError) initState).1.cameraRetryCount = 1 := by
  decide

/-- Claim C5 (code bug evidence): switchCamera from an Active session
with rear preference flips currentFacingMode to user, but the restarted
startCamera overwrites it from the getBestCamera heuristic at qr.js line
201; with a rear-labelled device present the session ends Active under
the pre-switch preference. -/
theorem switchCamera_can_keep_stale_preference :
    activeScanState.currentFacingMode = .environment ∧
    (switchCamera switchEnvOk activeScanState).2 = .completed .done ∧
    (switchCamera switchEnvOk activeScanState).1.isScanning = true ∧
    (switchCamera switchEnvOk activeScanState).1.currentFacingMode = .environment := by
  decide

set_option maxRecDepth 40000 in
/-- Claim C6 (counterexample): a payload of length 1001 made of
STUDENT_1 followed by 992 spaces is accepted, because validateQRCode
trims before the length check at qr.js line 419. -/
theorem padded_length_1001_payload_accepted :
    paddedPayload.length = 1001 ∧ (validateQRCode paddedPayload).valid = true := by
  exact ⟨rfl, rfl⟩

/-- Claim C3 (amended): from a fresh session, four consecutive
non-permission acquisition failures (the initial attempt plus the three
scheduled retries) drive the session to the terminal error state after
exactly three backoff attempts whose delays grow linearly as
CAMERA_RETRY_DELAY times the attempt number, and the escalation
schedules no further automatic attempt. -/
theorem four_failures_escalate_after_three_backoffs (s : ScannerState)
    (e1 e2 e3 e4 : CameraError)
    (hsc : s.isScanning = false) (hrc : s.cameraRetryCount = 0) :
    (runRetry s [failingAttempt e1, failingAttempt e2, failingAttempt e3,
        failingAttempt e4]).2 =
      [.retryScheduled (CAMERA_RETRY_DELAY * 1), .retryScheduled (CAMERA_RETRY_DELAY * 2),
       .retryScheduled (CAMERA_RETRY_DELAY * 3), .escalated e4] := by
  simp [runRetry, startCameraWithRetry, startCamera, failingAttempt, getBestCamera,
    handleCameraError, hsc, hrc, MAX_RETRIES, CAMERA_RETRY_DELAY]

/-- Witness for the amended claim C3 at a concrete run. -/
theorem four_failures_escalate_after_three_backoffs_witness :
    (runRetry initState [failingAttempt .NotFoundError, failingAttempt .NotFoundError,
        failingAttempt .NotFoundError, failingAttempt .NotFoundError]).2 =
      [.retryScheduled (CAMERA_RETRY_DELAY * 1), .retryScheduled (CAMERA_RETRY_DELAY * 2),
       .retryScheduled (CAMERA_RETRY_DELAY * 3), .escalated .NotFoundError] :=
  four_failures_escalate_after_three_backoffs initState .NotFoundError .NotFoundError
    .NotFoundError .NotFoundError rfl rfl

/-- Claim C4 (amended): a permission denial detected by the Permissions
API query (state denied, qr.js line 146) escalates immediately to the
user-facing error state with no retry: the retry counter is untouched,
no start is scheduled, and the camera-error statistic is recorded. -/
theorem permission_query_denied_is_terminal (env : AttemptEnv) (s : ScannerState)
    (h : env.permission = .denied) :
    startCameraWithRetry env s = (handleCameraError s, .permissionEscalated) ∧
    (handleCameraError s).cameraRetryCount = s.cameraRetryCount ∧
    (handleCameraError s).stats.cameraErrors = s.stats.cameraErrors + 1 := by
  simp [startCameraWithRetry, h, handleCameraError, ScanStats.recordCameraError]

/-- Witness for the amended claim C4 at a concrete environment. -/
theorem permission_query_denied_is_terminal_witness :
    startCameraWithRetry { permission := .denied, start := leakEnv } initState =
      (handleCameraError initState, .permissionEscalated) ∧
    (handleCameraError initState).cameraRetryCount = initState.cameraRetryCount ∧
    (handleCameraError initState).stats.cameraErrors = initState.stats.cameraErrors + 1 :=
  permission_query_denied_is_terminal { permission := .denied, start := leakEnv } initState rfl

/-- An environment in which the jsQR global is undefined. -/
def unloadedEnv : StartEnv :=
  { jsQRLoaded := false, devices := none, acquisition := .err .otherError, videoReady := true }

/-- Claim C8: when the decode capability is unavailable, startCamera
aborts at the guard of qr.js line 180 with the decoder-unavailable
report, the state is unchanged, and the effect trace is empty: no device
enumeration and no stream acquisition occurs. -/
theorem library_missing_means_no_hardware_touched (env : StartEnv) (s : ScannerState)
    (hlib : env.jsQRLoaded = false) (hsc : s.isScanning = false) :
    startCamera env s = (s, .libraryNotLoaded, ([] : List Effect)) := by
  simp [startCamera, hlib, hsc]

/-- Witness for claim C8 at a concrete environment. -/
theorem library_missing_means_no_hardware_touched_witness :
    startCamera unloadedEnv initState = (initState, .libraryNotLoaded, ([] : List Effect)) :=
  library_missing_means_no_hardware_touched unloadedEnv initState rfl rfl

/-- Claim C9: totalScans equals successfulScans plus failedScans (with
all counters non-negative by construction in Nat), the initial counters
satisfy it, and every statistics operation preserves it. -/
theorem scanStats_invariant_preserved (st : ScanStats) (now : Nat) (b : Bool)
    (h : statsInvariant st) :
    statsInvariant initStats ∧ statsInvariant (st.startSession now) ∧
    statsInvariant (st.recordScan b) ∧ statsInvariant st.recordCameraStart ∧
    statsInvariant st.recordCameraError := by
  unfold statsInvariant at h ⊢
  cases b <;>
    simp [ScanStats.startSession, ScanStats.recordScan, ScanStats.recordCameraStart,
      ScanStats.recordCameraError, initStats] <;>
    omega

/-- Witness for claim C9 at a concrete statistics record. -/
theorem scanStats_invariant_preserved_witness :
    statsInvariant initStats ∧ statsInvariant (initStats.startSession 5) ∧
    statsInvariant (initStats.recordScan true) ∧ statsInvariant initStats.recordCameraStart ∧
    statsInvariant initStats.recordCameraError :=
  scanStats_invariant_preserved initStats 5 true rfl

/-- When validateQRCode accepts, the cleanData field is exactly the
trimmed input. -/
theorem validateQRCode_valid_cleanData (q : String)
    (h : (validateQRCode q).valid = true) :
    (validateQRCode q).cleanData = some (jsTrim q) := by
  by_cases h0 : q = ""
  · simp [validateQRCode, h0] at h
  · by_cases h1 : (jsTrim q).length = 0
    · simp [validateQRCode, h0, h1] at h
    · by_cases h2 : (jsTrim q).length > 1000
      · simp [validateQRCode, h0, h1, h2] at h
      · simp [validateQRCode, h0, h1, h2]

/-- Claim C10: validateQRCode trims before any check, so a non-empty
all-whitespace payload is rejected as empty, and any payload that
processQRCode dispatches is dispatched in its trimmed form. -/
theorem validate_trims_before_checks (s q : String) (now : Nat) (st : ScannerState)
    (c : String)
    (hs : s ≠ "") (hws : s.toList.all isJsWhitespace = true)
    (hd : (processQRCode now st q).2 = .dispatched c) :
    validateQRCode s =
      { valid := false, cleanData := none, reason := "Empty QR code" } ∧
    (validateQRCode q).cleanData = some (jsTrim q) ∧ c = jsTrim q := by
  have htrim : jsTrim s = "" := by
    have hnil : List.dropWhile isJsWhitespace s.data = [] := by
      rw [List.dropWhile_eq_nil_iff]
      intro x hx
      exact List.all_eq_true.mp hws x hx
    unfold jsTrim
    rw [show s.toList = s.data from rfl, hnil]
    rfl
  have hv : (validateQRCode q).valid = true := by
    by_contra hvc
    have hvf : (validateQRCode q).valid = false := by
      cases hvv : (validateQRCode q).valid
      · rfl
      · exact absurd hvv hvc
    simp [processQRCode, hvf] at hd
  have hclean := validateQRCode_valid_cleanData q hv
  refine ⟨?_, hclean, ?_⟩
  · have hlen : (jsTrim s).length = 0 := by rw [htrim]; rfl
    simp [validateQRCode, hs, hlen]
  · by_cases hcd : now - st.lastScanTime < SCAN_COOLDOWN
    · simp [processQRCode, hv, hcd] at hd
    · simp [processQRCode, hv, hcd] at hd
      rw [← hd, hclean]
      rfl

/-- Witness for claim C10 at concrete payloads. -/
theorem validate_trims_before_checks_witness :
    validateQRCode "   " =
      { valid := false, cleanData := none, reason := "Empty QR code" } ∧
    (validateQRCode "STUDENT_12345").cleanData = some (jsTrim "STUDENT_12345") ∧
    "STUDENT_12345" = jsTrim "STUDENT_12345" :=
  validate_trims_before_checks "   " "STUDENT_12345" 5000 initState "STUDENT_12345"
    (by decide) (by decide) (by decide)

/-- Claim C6 (amended): the empty payload is rejected, any payload whose
trimmed form has length 1001 is rejected, STUDENT_12345 is accepted, ab
is rejected, and a payload that validateQRCode rejects is never handed
to the dispatch step by processQRCode. -/
theorem validate_examples_and_no_invalid_dispatch (s q : String) (now : Nat)
    (st : ScannerState) (c : String)
    (h1001 : (jsTrim s).length = 1001)
    (hrej : (validateQRCode q).valid = false) :
    (validateQRCode "").valid = false ∧
    (validateQRCode s).valid = false ∧
    (validateQRCode "STUDENT_12345").valid = true ∧
    (validateQRCode "ab").valid = false ∧
    (processQRCode now st q).2 ≠ .dispatched c := by
  refine ⟨by decide, ?_, by decide, by decide, ?_⟩
  · have h0 : s ≠ "" := by
      intro h
      rw [h] at h1001
      exact absurd h1001 (by decide)
    have hne : ¬(jsTrim s).length = 0 := by omega
    have hgt : (jsTrim s).length > 1000 := by omega
    simp [validateQRCode, h0, hne, hgt]
  · simp [processQRCode, hrej]

/-- A whitespace-free payload whose trimmed form has length 1001. -/
def longDigits : String := String.mk (List.replicate 1001 '1')

set_option maxRecDepth 40000 in
/-- Witness for the amended claim C6 at concrete payloads. -/
theorem validate_examples_and_no_invalid_dispatch_witness :
    (jsTrim longDigits).length = 1001 ∧ (validateQRCode "ab").valid = false ∧
    ((validateQRCode "").valid = false ∧
     (validateQRCode longDigits).valid = false ∧
     (validateQRCode "STUDENT_12345").valid = true ∧
     (validateQRCode "ab").valid = false ∧
     (processQRCode 0 initState "ab").2 ≠ .dispatched "ab") :=
  ⟨rfl, rfl, validate_examples_and_no_invalid_dispatch longDigits "ab" 0 initState "ab" rfl rfl⟩

/-- stopCamera never touches the throttle timestamp. -/
theorem stopCamera_lastScanTime (s : ScannerState) :
    (stopCamera s).lastScanTime = s.lastScanTime := by
  unfold stopCamera
  split
  · rfl
  · split <;> rfl

/-- processQRCode leaves lastScanTime fixed when it already equals the
processing time. -/
theorem processQRCode_lastScanTime (now : Nat) (s : ScannerState) (p : String)
    (h : s.lastScanTime = now) :
    (processQRCode now s p).1.lastScanTime = now := by
  unfold processQRCode
  by_cases h1 : (validateQRCode p).valid = false
  · simp only [h1, if_true, ite_true]
    exact h
  · by_cases h2 : now - s.lastScanTime < SCAN_COOLDOWN
    · simp only [h1, h2, if_false, if_true, ite_false, ite_true]
      exact h
    · simp only [h1, h2, if_false, ite_false]
      rfl

/-- Case analysis of one tick: either the decoder was not invoked and
the throttle timestamp did not decrease, or the decoder was invoked, in
which case the tick time is at least SCAN_INTERVAL past the previous
timestamp and becomes the new timestamp. -/
theorem scanQRTick_spec (now : Nat) (f : Bool) (dr : DecodeResult) (s : ScannerState) :
    (decodeAttempted (scanQRTick now f dr s).2 = false ∧
      s.lastScanTime ≤ (scanQRTick now f dr s).1.lastScanTime) ∨
    (decodeAttempted (scanQRTick now f dr s).2 = true ∧
      s.lastScanTime + SCAN_INTERVAL ≤ now ∧
      (scanQRTick now f dr s).1.lastScanTime = now) := by
  by_cases hsc : s.isScanning = false
  · left
    unfold scanQRTick
    rw [if_pos hsc]
    exact ⟨rfl, Nat.le_refl _⟩
  · by_cases ht : now - s.lastScanTime < SCAN_INTERVAL
    · left
      unfold scanQRTick
      rw [if_neg hsc, if_pos ht]
      exact ⟨rfl, Nat.le_refl _⟩
    · have hge : s.lastScanTime + SCAN_INTERVAL ≤ now := by
        unfold SCAN_INTERVAL at ht ⊢
        omega
      cases f with
      | false =>
        left
        unfold scanQRTick
        rw [if_neg hsc, if_neg ht]
        refine ⟨rfl, ?_⟩
        show s.lastScanTime ≤ now
        omega
      | true =>
        cases dr with
        | ok p =>
          right
          unfold scanQRTick
          rw [if_neg hsc, if_neg ht]
          refine ⟨rfl, hge, ?_⟩
          exact processQRCode_lastScanTime now _ p (by rw [stopCamera_lastScanTime])
        | noCode =>
          right
          unfold scanQRTick
          rw [if_neg hsc, if_neg ht]
          exact ⟨rfl, hge, rfl⟩
        | threw =>
          right
          unfold scanQRTick
          rw [if_neg hsc, if_neg ht]
          exact ⟨rfl, hge, rfl⟩

/-- Decode attempts collected by runTicks are spaced at least
SCAN_INTERVAL apart and all lie at least SCAN_INTERVAL past the initial
throttle timestamp. -/
theorem runTicks_decodeTimes (ticks : List Tick) : ∀ s : ScannerState,
    List.Chain' (fun a b => a + SCAN_INTERVAL ≤ b) (runTicks s ticks).2 ∧
    ∀ d ∈ (runTicks s ticks).2, s.lastScanTime + SCAN_INTERVAL ≤ d := by
  induction ticks with
  | nil =>
    intro s
    refine ⟨by simp [runTicks], ?_⟩
    intro d hd
    simp [runTicks] at hd
  | cons t ts ih =>
    intro s
    have hrec := ih (scanQRTick t.now t.frameReady t.decode s).1
    rcases scanQRTick_spec t.now t.frameReady t.decode s with ⟨ha, hle⟩ | ⟨ha, hnow, heq⟩
    · have hunf : (runTicks s (t :: ts)).2 =
          (runTicks (scanQRTick t.now t.frameReady t.decode s).1 ts).2 := by
        simp [runTicks, ha]
      rw [hunf]
      refine ⟨hrec.1, ?_⟩
      intro d hd
      have := hrec.2 d hd
      omega
    · have hunf : (runTicks s (t :: ts)).2 =
          t.now :: (runTicks (scanQRTick t.now t.frameReady t.decode s).1 ts).2 := by
        simp [runTicks, ha]
      rw [hunf]
      constructor
      · rw [List.chain'_cons']
        refine ⟨?_, hrec.1⟩
        intro b hb
        have hbm := List.mem_of_mem_head? hb
        have := hrec.2 b hbm
        omega
      · intro d hd
        rcases List.mem_cons.mp hd with hd | hd
        · omega
        · have := hrec.2 d hd
          omega

/-- Claim C7: across any tick sequence the decode capability is invoked
at most once per SCAN_INTERVAL window (consecutive decode-attempt times
are at least SCAN_INTERVAL apart), and a tick arriving less than
SCAN_INTERVAL after the last attempt reschedules without decoding. -/
theorem decode_throttled_once_per_interval (s sc : ScannerState) (ticks : List Tick)
    (now : Nat) (f : Bool) (dr : DecodeResult)
    (hsc : sc.isScanning = true) (hlt : now - sc.lastScanTime < SCAN_INTERVAL) :
    List.Chain' (fun a b => a + SCAN_INTERVAL ≤ b) (runTicks s ticks).2 ∧
    (scanQRTick now f dr sc).2 = .throttled ∧
    decodeAttempted (scanQRTick now f dr sc).2 = false := by
  refine ⟨(runTicks_decodeTimes ticks s).1, ?_, ?_⟩ <;>
    simp [scanQRTick, hsc, hlt, decodeAttempted]

/-- Witness for claim C7 on a concrete tick sequence and a concrete
early tick. -/
theorem decode_throttled_once_per_interval_witness :
    List.Chain' (fun a b => a + SCAN_INTERVAL ≤ b)
      (runTicks activeScanState
        [⟨1000, true, .noCode⟩, ⟨1100, true, .noCode⟩, ⟨1400, true, .noCode⟩]).2 ∧
    (scanQRTick 100 true .noCode activeScanState).2 = .throttled ∧
    decodeAttempted (scanQRTick 100 true .noCode activeScanState).2 = false :=
  decode_throttled_once_per_interval activeScanState activeScanState
    [⟨1000, true, .noCode⟩, ⟨1100, true, .noCode⟩, ⟨1400, true, .noCode⟩]
    100 true .noCode rfl (by decide)
